import Mathlib

/-!
Shallow embedding of the CRS Invaders game core:
`src/Physics.js` (CRSCalculator, circleCollision) and `src/Main.js`
(Player, Pulse, Clot, PowerUp, Game).  JS numbers are modelled as
rationals; `Math.random()` draws are supplied by an explicit oracle
(`Env`) threaded through the stateful operations.  Purely cosmetic
entity fields (fibrin strands, platelets, wobble offsets, particles,
rendering state) are omitted: no game logic reads them.
-/

/-- GAME_STATES table from Main.js. -/
inductive GameState
  | menu | playing | paused | levelComplete | gameOver | scienceModal
deriving DecidableEq, Repr

/-- The four keys of POWERUP_TYPES from Main.js. -/
inductive PowerUpType
  | rapidFire | heal | multiShot | shield
deriving DecidableEq, Repr

/-- lerp from Physics.js. -/
def lerp (start finish factor : ℚ) : ℚ := start + (finish - start) * factor

/-- circleCollision from Physics.js tests `sqrt(dx*dx+dy*dy) < r1+r2`.
Stated without the square root: for s = r1+r2 the JS test holds iff
0 < s and dx*dx+dy*dy < s*s (a nonnegative sqrt is < s only if 0 < s). -/
def circleCollision (x1 y1 r1 x2 y2 r2 : ℚ) : Bool :=
  let dx := x2 - x1
  let dy := y2 - y1
  decide (0 < r1 + r2 ∧ dx * dx + dy * dy < (r1 + r2) * (r1 + r2))

/-- Player from Main.js (canvas reference replaced by explicit width flow). -/
structure Player where
  width : ℚ
  height : ℚ
  x : ℚ
  y : ℚ
  targetX : ℚ
  lerpFactor : ℚ
  pulseTime : ℚ
deriving DecidableEq, Repr

/-- Player constructor from Main.js. -/
def Player.make (canvasWidth canvasHeight : ℚ) : Player :=
  { width := 50, height := 30, x := canvasWidth / 2, y := canvasHeight - 80,
    targetX := canvasWidth / 2, lerpFactor := 0.12, pulseTime := 0 }

/-- Player.update from Main.js: lerp toward target, clamp to canvas. -/
def Player.update (p : Player) (deltaTime canvasWidth : ℚ) : Player :=
  let x1 := lerp p.x p.targetX p.lerpFactor
  let halfWidth := p.width / 2
  let x2 := max halfWidth (min (canvasWidth - halfWidth) x1)
  { p with x := x2, pulseTime := p.pulseTime + deltaTime }

/-- One entry of a Pulse's trail buffer. -/
structure TrailPoint where
  x : ℚ
  y : ℚ
  alpha : ℚ
deriving DecidableEq, Repr

/-- Pulse (projectile) from Main.js. -/
structure Pulse where
  x : ℚ
  y : ℚ
  speed : ℚ
  radius : ℚ
  life : ℚ
  trail : List TrailPoint
deriving DecidableEq, Repr

/-- Pulse constructor from Main.js. -/
def Pulse.make (x y : ℚ) : Pulse :=
  { x := x, y := y, speed := 12, radius := 8, life := 1, trail := [] }

/-- Pulse.update from Main.js: push trail point, cap trail at 10 (shift
drops the oldest), decay trail alpha, move up; alive while y > -radius. -/
def Pulse.update (p : Pulse) : Pulse × Bool :=
  let t1 := p.trail ++ [⟨p.x, p.y, 1⟩]
  let t2 := if 10 < t1.length then t1.drop 1 else t1
  let t3 := t2.map fun t => { t with alpha := t.alpha * 0.85 }
  let y1 := p.y - p.speed
  ({ p with trail := t3, y := y1 }, decide (-p.radius < y1))

/-- Clot (enemy) from Main.js; decorative fields omitted. -/
structure Clot where
  x : ℚ
  y : ℚ
  baseRadius : ℚ
  radius : ℚ
  minRadius : ℚ
  shrinkAmount : ℚ
  speed : ℚ
  vx : ℚ
  residenceTime : ℚ
  hitFlash : ℚ
  difficultyMultiplier : ℚ
  dropsPowerUp : Bool
deriving DecidableEq, Repr

/-- Raw Math.random draws consumed by the Clot constructor. -/
structure ClotRand where
  xR : ℚ
  bR : ℚ
  sR : ℚ
  spR : ℚ
  vR : ℚ
  dR : ℚ
deriving Repr

/-- Clot constructor from Main.js, with the random draws made explicit. -/
def Clot.make (x y difficultyMultiplier : ℚ) (r : ClotRand) : Clot :=
  let baseRadius := 45 + r.bR * 35
  { x := x, y := y, baseRadius := baseRadius, radius := baseRadius,
    minRadius := 10, shrinkAmount := 5 + r.sR * 3,
    speed := (0.4 + r.spR * 0.4) * (1 + (difficultyMultiplier - 1) * 0.7),
    vx := (r.vR - 0.5) * 0.5, residenceTime := 0, hitFlash := 0,
    difficultyMultiplier := difficultyMultiplier,
    dropsPowerUp := decide (r.dR < 0.15) }

/-- Clot.update from Main.js: descend, drift, bounce off walls, clamp,
accumulate residence time, decay hit flash. -/
def Clot.update (c : Clot) (deltaTime canvasWidth : ℚ) : Clot :=
  let y1 := c.y + c.speed
  let x1 := c.x + c.vx
  let rt := c.residenceTime + deltaTime
  let vx1 := if x1 < c.radius ∨ canvasWidth - c.radius < x1 then -c.vx else c.vx
  let x2 := max c.radius (min (canvasWidth - c.radius) x1)
  let hf := if 0 < c.hitFlash then c.hitFlash - deltaTime * 0.01 else c.hitFlash
  { c with y := y1, x := x2, vx := vx1, residenceTime := rt, hitFlash := hf }

/-- Clot.hit from Main.js: set hit flash, shrink by shrinkAmount, report
destroyed when the resulting radius is ≤ minRadius. -/
def Clot.hit (c : Clot) : Clot × Bool :=
  let c1 := { c with hitFlash := 1, radius := c.radius - c.shrinkAmount }
  (c1, decide (c1.radius ≤ c.minRadius))

/-- Clot.getScale from Main.js. -/
def Clot.getScale (c : Clot) : ℚ := c.radius / c.baseRadius

/-- PowerUp from Main.js. -/
structure PowerUp where
  x : ℚ
  y : ℚ
  radius : ℚ
  speed : ℚ
  typeKey : PowerUpType
  rotation : ℚ
  pulsePhase : ℚ
deriving DecidableEq, Repr

/-- PowerUp constructor from Main.js; the random type pick and random
pulse phase are supplied by the oracle. -/
def PowerUp.make (x y : ℚ) (typeKey : PowerUpType) (pulsePhase : ℚ) : PowerUp :=
  { x := x, y := y, radius := 18, speed := 1.5, typeKey := typeKey,
    rotation := 0, pulsePhase := pulsePhase }

/-- PowerUp.update from Main.js: descend; alive while y < 1000. -/
def PowerUp.update (pu : PowerUp) (deltaTime : ℚ) : PowerUp × Bool :=
  let y1 := pu.y + pu.speed
  ({ pu with
     y := y1, rotation := pu.rotation + deltaTime * 0.003,
     pulsePhase := pu.pulsePhase + deltaTime * 0.005 }, decide (y1 < 1000))

/-- CRSCalculator from Physics.js. -/
structure CRSCalculator where
  crsValue : ℚ
  maxCRS : ℚ
  recoveryRate : ℚ
deriving DecidableEq, Repr

/-- CRSCalculator constructor from Physics.js. -/
def CRSCalculator.init : CRSCalculator :=
  { crsValue := 0, maxCRS := 100, recoveryRate := 5 }

/-- CRSCalculator.update from Physics.js: every clot here has getScale,
so the `clot.getScale ? ... : radius/50` fallback resolves to getScale. -/
def CRSCalculator.update (c : CRSCalculator) (clots : List Clot) (deltaTime : ℚ) :
    CRSCalculator :=
  let crsIncrease := clots.foldl
    (fun acc clot =>
      let scale := clot.getScale
      let mass := scale * scale
      acc + mass * (deltaTime / 1000) * 2) 0
  { c with crsValue := min c.maxCRS (c.crsValue + crsIncrease) }

/-- CRSCalculator.onClotDestroyed from Physics.js. -/
def CRSCalculator.onClotDestroyed (c : CRSCalculator) (clotScale : ℚ) : CRSCalculator :=
  { c with crsValue := max 0 (c.crsValue - c.recoveryRate * clotScale) }

/-- CRSCalculator.isCritical from Physics.js. -/
def CRSCalculator.isCritical (c : CRSCalculator) : Bool := decide (70 ≤ c.crsValue)

/-- CRSCalculator.isFailed from Physics.js. -/
def CRSCalculator.isFailed (c : CRSCalculator) : Bool := decide (c.maxCRS ≤ c.crsValue)

/-- CRSCalculator.reset from Physics.js. -/
def CRSCalculator.reset (c : CRSCalculator) : CRSCalculator := { c with crsValue := 0 }

/-- Oracle for the Math.random draws the game consumes: the n-th spawned
clot's raw draws, the raw draws deciding extra spawns, and the n-th
spawned power-up's type pick and pulse phase.  Each stream carries an
index recording how many draws were consumed. -/
structure Env where
  clotRand : ℕ → ClotRand
  clotIdx : ℕ
  extraRand : ℕ → ℚ
  extraIdx : ℕ
  puType : ℕ → PowerUpType
  puPhase : ℕ → ℚ
  puIdx : ℕ

/-- Game from Main.js: the simulation-core state (rendering, particle and
DOM state omitted).  `autoFireTimer` is created lazily in JS via
`(this.autoFireTimer || 0)`, i.e. it starts at 0. -/
structure Game where
  canvasWidth : ℚ
  canvasHeight : ℚ
  player : Player
  pulses : List Pulse
  clots : List Clot
  powerUps : List PowerUp
  crs : CRSCalculator
  state : GameState
  level : ℕ
  score : ℕ
  pulseCooldown : ℚ
  spawnTimer : ℚ
  gameTime : ℚ
  wasCritical : Bool
  difficultyTimer : ℚ
  difficultyLevel : ℤ
  difficultyMultiplier : ℚ
  combo : ℕ
  comboTimer : ℚ
  maxCombo : ℕ
  rapidFire : ℚ
  multiShot : ℚ
  shield : ℚ
  autoFireTimer : ℚ
deriving DecidableEq, Repr

/-- Game constructor from Main.js (initial field values). -/
def Game.init (canvasWidth canvasHeight : ℚ) : Game :=
  { canvasWidth := canvasWidth, canvasHeight := canvasHeight,
    player := Player.make canvasWidth canvasHeight,
    pulses := [], clots := [], powerUps := [], crs := CRSCalculator.init,
    state := GameState.menu, level := 0, score := 0, pulseCooldown := 0,
    spawnTimer := 0, gameTime := 0, wasCritical := false,
    difficultyTimer := 0, difficultyLevel := 0, difficultyMultiplier := 1,
    combo := 0, comboTimer := 0, maxCombo := 0,
    rapidFire := 0, multiShot := 0, shield := 0, autoFireTimer := 0 }

/-- Game.fire from Main.js: no-op unless Playing; at < 20 live pulses push
three pulses under multi-shot, otherwise one. -/
def Game.fire (g : Game) : Game :=
  if g.state ≠ GameState.playing then g
  else if g.pulses.length < 20 then
    if 0 < g.multiShot then
      { g with pulses := g.pulses ++
          [Pulse.make (g.player.x - 15) (g.player.y - g.player.height / 2),
           Pulse.make g.player.x (g.player.y - g.player.height / 2),
           Pulse.make (g.player.x + 15) (g.player.y - g.player.height / 2)] }
    else
      { g with pulses := g.pulses ++
          [Pulse.make g.player.x (g.player.y - g.player.height / 2)] }
  else g

/-- Game.startGame from Main.js.  Note it does not touch `autoFireTimer`
(nor `gameTime`). -/
def Game.startGame (g : Game) : Game :=
  { g with
    state := GameState.playing, level := 0, score := 0,
    pulses := [], clots := [], powerUps := [], crs := g.crs.reset,
    spawnTimer := 0, pulseCooldown := 0, wasCritical := false,
    difficultyTimer := 0, difficultyLevel := 0, difficultyMultiplier := 1,
    combo := 0, comboTimer := 0, maxCombo := 0,
    rapidFire := 0, multiShot := 0, shield := 0 }

/-- Game.spawnClot from Main.js, consuming one bundle of clot draws. -/
def Game.spawnClot (g : Game) (e : Env) : Game × Env :=
  let r := e.clotRand e.clotIdx
  let x := 30 + r.xR * (g.canvasWidth - 60)
  ({ g with clots := g.clots ++ [Clot.make x (-80) g.difficultyMultiplier r] },
   { e with clotIdx := e.clotIdx + 1 })

/-- Game.update segment: gameTime/difficulty ramp (Main.js lines 600-613). -/
def Game.difficultyPhase (g : Game) (deltaTime : ℚ) : Game :=
  let g1 := { g with
    gameTime := g.gameTime + deltaTime,
    difficultyTimer := g.difficultyTimer + deltaTime }
  let newDifficultyLevel := Int.floor (g1.difficultyTimer / 5000)
  if g1.difficultyLevel < newDifficultyLevel then
    { g1 with
      difficultyLevel := newDifficultyLevel,
      difficultyMultiplier := min (1 + (newDifficultyLevel : ℚ) * 0.4) 4 }
  else g1

/-- Game.update segment: player movement. -/
def Game.playerPhase (g : Game) (deltaTime : ℚ) : Game :=
  { g with player := g.player.update deltaTime g.canvasWidth }

/-- Game.update segment: auto-fire timer (75ms rate with rapid fire, else
120ms); fires and zeroes the timer when the rate is reached. -/
def Game.autoFirePhase (g : Game) (deltaTime : ℚ) : Game :=
  let t := g.autoFireTimer + deltaTime
  let fireRate : ℚ := if 0 < g.rapidFire then 75 else 120
  if fireRate ≤ t then { g.fire with autoFireTimer := 0 }
  else { g with autoFireTimer := t }

/-- Game.update segment: move pulses and cull the ones past the top. -/
def Game.pulsesPhase (g : Game) : Game :=
  { g with pulses := g.pulses.filterMap fun p =>
      let r := p.update
      if r.2 then some r.1 else none }

/-- Game.update segment: spawn timer; on firing it spawns one clot, resets
the timer, and at difficulty levels ≥ 3 / ≥ 5 rolls for extra spawns
(draws evaluated only when the level test passes, as in the JS
short-circuit). -/
def Game.spawnPhase (g : Game) (e : Env) (deltaTime : ℚ) : Game × Env :=
  let g1 := { g with spawnTimer := g.spawnTimer + deltaTime }
  let adjustedSpawnRate := (2500 : ℚ) / g1.difficultyMultiplier
  if adjustedSpawnRate ≤ g1.spawnTimer then
    let ge : Game × Env := g1.spawnClot e
    let g2 : Game := { ge.1 with spawnTimer := 0 }
    let ge2 : Game × Env :=
      if 3 ≤ g2.difficultyLevel then
        let d := ge.2.extraRand ge.2.extraIdx
        let e2 := { ge.2 with extraIdx := ge.2.extraIdx + 1 }
        if d < 0.3 then g2.spawnClot e2 else (g2, e2)
      else (g2, ge.2)
    let ge3 : Game × Env :=
      if 5 ≤ ge2.1.difficultyLevel then
        let d := ge2.2.extraRand ge2.2.extraIdx
        let e3 := { ge2.2 with extraIdx := ge2.2.extraIdx + 1 }
        if d < 0.25 then ge2.1.spawnClot e3 else (ge2.1, e3)
      else ge2
    ge3
  else (g1, e)

/-- Game.update segment: move all clots. -/
def Game.clotsPhase (g : Game) (deltaTime : ℚ) : Game :=
  { g with clots := g.clots.map fun c => c.update deltaTime g.canvasWidth }

/-- Mutable locals of Game.checkCollisions: the clot array (mutated in
place by hits), the two removal index sets, and the game fields the scan
writes, plus the oracle for power-up drops. -/
structure ScanState where
  clots : List Clot
  pulsesToRemove : List ℕ
  clotsToRemove : List ℕ
  combo : ℕ
  comboTimer : ℚ
  maxCombo : ℕ
  score : ℕ
  crs : CRSCalculator
  powerUps : List PowerUp
  env : Env

/-- Body of the inner forEach of Game.checkCollisions for one
(pulse, clot-index) pair.  Note the JS has no guard on already-marked
pulses or clots: every colliding pair is processed. -/
def processPair (pulse : Pulse) (pi ci : ℕ) (s : ScanState) : ScanState :=
  match s.clots.get? ci with
  | none => s
  | some clot =>
    if circleCollision pulse.x pulse.y pulse.radius clot.x clot.y clot.radius then
      let combo := s.combo + 1
      let maxCombo := max s.maxCombo combo
      let comboBonus := min combo 10
      let hc := clot.hit
      let s1 := { s with
        pulsesToRemove := pi :: s.pulsesToRemove,
        combo := combo, comboTimer := 1500, maxCombo := maxCombo,
        score := s.score + 5 * comboBonus,
        clots := s.clots.set ci hc.1 }
      if hc.2 then
        let s2 := { s1 with
          clotsToRemove := ci :: s1.clotsToRemove,
          score := s1.score + 50 * comboBonus,
          crs := s1.crs.onClotDestroyed hc.1.getScale }
        if clot.dropsPowerUp then
          { s2 with
            powerUps := s2.powerUps ++
              [PowerUp.make clot.x clot.y (s2.env.puType s2.env.puIdx)
                (s2.env.puPhase s2.env.puIdx)],
            env := { s2.env with puIdx := s2.env.puIdx + 1 } }
        else s2
      else s1
    else s

/-- Game.checkCollisions from Main.js: all-pairs scan of pulses × clots,
then removal of the marked indices. -/
def Game.checkCollisions (g : Game) (e : Env) : Game × Env :=
  let s0 : ScanState :=
    ⟨g.clots, [], [], g.combo, g.comboTimer, g.maxCombo, g.score, g.crs,
     g.powerUps, e⟩
  let s := g.pulses.enum.foldl
    (fun s pp =>
      (List.range s.clots.length).foldl (fun s ci => processPair pp.2 pp.1 ci s) s)
    s0
  ({ g with
     pulses := (g.pulses.enum.filter fun pp => pp.1 ∉ s.pulsesToRemove).map Prod.snd,
     clots := (s.clots.enum.filter fun cp => cp.1 ∉ s.clotsToRemove).map Prod.snd,
     combo := s.combo, comboTimer := s.comboTimer, maxCombo := s.maxCombo,
     score := s.score, crs := s.crs, powerUps := s.powerUps }, s.env)

/-- Escape test of the clot cull in Game.update (lines 652-662):
`clot.y > canvas.height + clot.radius`. -/
def escaped (canvasHeight : ℚ) (c : Clot) : Bool :=
  decide (canvasHeight + c.radius < c.y)

/-- Game.update segment: cull escaped clots, adding the penalty
`25 + scale*15` directly to `crs.crsValue` (no clamp here). -/
def Game.escapePhase (g : Game) : Game :=
  let r := g.clots.foldl
    (fun (acc : List Clot × ℚ) c =>
      if escaped g.canvasHeight c then (acc.1, acc.2 + (25 + c.getScale * 15))
      else (acc.1 ++ [c], acc.2))
    ([], g.crs.crsValue)
  { g with clots := r.1, crs := { g.crs with crsValue := r.2 } }

/-- Game.update segment: CRS accumulation over the surviving clots. -/
def Game.crsPhase (g : Game) (deltaTime : ℚ) : Game :=
  { g with crs := g.crs.update g.clots deltaTime }

/-- Game.update segment: critical-CRS latch (screen shake omitted). -/
def Game.criticalPhase (g : Game) : Game :=
  if g.crs.isCritical then
    if ¬ g.wasCritical then { g with wasCritical := true } else g
  else { g with wasCritical := false }

/-- Game.update segment: transition to GameOver when CRS has failed. -/
def Game.gameOverPhase (g : Game) : Game :=
  if g.crs.isFailed then { g with state := GameState.gameOver } else g

/-- Game.update segment: move power-ups and cull off-screen ones. -/
def Game.powerUpsMovePhase (g : Game) (deltaTime : ℚ) : Game :=
  { g with powerUps := g.powerUps.filterMap fun pu =>
      let r := pu.update deltaTime
      if r.2 then some r.1 else none }

/-- Game.applyPowerUp from Main.js (+100 score for any collected kind). -/
def Game.applyPowerUp (g : Game) (typeKey : PowerUpType) : Game :=
  let g1 := match typeKey with
    | PowerUpType.rapidFire => { g with rapidFire := 5000 }
    | PowerUpType.heal =>
        { g with crs := { g.crs with crsValue := max 0 (g.crs.crsValue - 25) } }
    | PowerUpType.multiShot => { g with multiShot := 6000 }
    | PowerUpType.shield => { g with shield := 4000 }
  { g1 with score := g1.score + 100 }

/-- Game.update segment: power-up pickup test against the player center
(`dist < pu.radius + 30`, stated sqrt-free as for circleCollision). -/
def Game.pickupPhase (g : Game) : Game :=
  let r := g.powerUps.foldl
    (fun (acc : List PowerUp × Game) pu =>
      let dx := pu.x - acc.2.player.x
      let dy := pu.y - acc.2.player.y
      if 0 < pu.radius + 30 ∧ dx * dx + dy * dy < (pu.radius + 30) * (pu.radius + 30)
      then (acc.1, acc.2.applyPowerUp pu.typeKey)
      else (acc.1 ++ [pu], acc.2))
    ([], g)
  { r.2 with powerUps := r.1 }

/-- Game.update segment: combo expiry (lines 709-715): while a combo is
live the timer is decremented and the combo zeroed once the timer is
≤ 0. -/
def Game.comboPhase (g : Game) (deltaTime : ℚ) : Game :=
  if 0 < g.combo then
    let t := g.comboTimer - deltaTime
    if t ≤ 0 then { g with comboTimer := t, combo := 0 }
    else { g with comboTimer := t }
  else g

/-- One active power-up timer step (lines 717-722): decremented only
while positive — note there is no flooring of the result at zero. -/
def decayTimer (t deltaTime : ℚ) : ℚ :=
  if 0 < t then t - deltaTime else t

/-- Game.update segment: decay the three active power-up timers. -/
def Game.timersPhase (g : Game) (deltaTime : ℚ) : Game :=
  { g with
    rapidFire := decayTimer g.rapidFire deltaTime,
    multiShot := decayTimer g.multiShot deltaTime,
    shield := decayTimer g.shield deltaTime }

/-- Game.update from Main.js: one frame of the simulation core, in source
order (particle and HUD updates are cosmetic and omitted). -/
def Game.update (g : Game) (e : Env) (deltaTime : ℚ) : Game × Env :=
  if g.state ≠ GameState.playing then (g, e)
  else
    let g1 := (((g.difficultyPhase deltaTime).playerPhase deltaTime).autoFirePhase
      deltaTime).pulsesPhase
    let ge := g1.spawnPhase e deltaTime
    let g2 := ge.1.clotsPhase deltaTime
    let ge2 := g2.checkCollisions ge.2
    let g3 := ((((ge2.1.escapePhase.crsPhase
      deltaTime).criticalPhase.gameOverPhase.powerUpsMovePhase
      deltaTime).pickupPhase.comboPhase deltaTime).timersPhase deltaTime)
    (g3, ge2.2)

/-- Generic foldl invariant preservation. -/
theorem foldl_invariant {α β : Type} (P : β → Prop) (f : β → α → β)
    (l : List α) (b : β) (hb : P b) (hf : ∀ b a, P b → P (f b a)) :
    P (l.foldl f b) := by
  induction l generalizing b with
  | nil => exact hb
  | cons x xs ih => exact ih _ (hf _ _ hb)

/-- Generic foldl monotonicity: if every step does not decrease the
accumulator, the fold does not decrease it. -/
theorem le_foldl_of_step {α : Type} (f : ℚ → α → ℚ) (hf : ∀ a c, a ≤ f a c) :
    ∀ (l : List α) (a : ℚ), a ≤ l.foldl f a := by
  intro l
  induction l with
  | nil => intro a; exact le_refl a
  | cons x xs ih => intro a; exact le_trans (hf a x) (ih (f a x))

/-- One call in a CRSCalculator call sequence: either update(clots, dt)
or onClotDestroyed(scale). -/
inductive CRSOp
  | upd (clots : List Clot) (deltaTime : ℚ)
  | destroyed (clotScale : ℚ)

/-- Apply one CRSCalculator call. -/
def CRSCalculator.applyOp (c : CRSCalculator) : CRSOp → CRSCalculator
  | CRSOp.upd clots dt => c.update clots dt
  | CRSOp.destroyed s => c.onClotDestroyed s

/-- The hypotheses of claim C1 on a call: non-negative deltaTime and
non-negative clot scales. -/
def CRSOp.valid : CRSOp → Prop
  | CRSOp.upd clots dt => 0 ≤ dt ∧ ∀ cl ∈ clots, 0 ≤ cl.getScale
  | CRSOp.destroyed s => 0 ≤ s

/-- The accumulation step of CRSCalculator.update never decreases the
accumulator when deltaTime is non-negative. -/
theorem crs_step_mono (dt : ℚ) (hdt : 0 ≤ dt) (a : ℚ) (cl : Clot) :
    a ≤ a + cl.getScale * cl.getScale * (dt / 1000) * 2 := by
  have h1 : 0 ≤ cl.getScale * cl.getScale := mul_self_nonneg _
  have h2 : 0 ≤ dt / 1000 := by positivity
  nlinarith

/-- Applying a valid CRSCalculator call preserves the bounds invariant. -/
theorem applyOp_inv (c : CRSCalculator) (op : CRSOp) (hop : op.valid)
    (h : 0 ≤ c.crsValue ∧ c.crsValue ≤ c.maxCRS ∧ c.maxCRS = 100 ∧ c.recoveryRate = 5) :
    0 ≤ (c.applyOp op).crsValue ∧ (c.applyOp op).crsValue ≤ (c.applyOp op).maxCRS ∧
      (c.applyOp op).maxCRS = 100 ∧ (c.applyOp op).recoveryRate = 5 := by
  obtain ⟨h0, h1, h2, h3⟩ := h
  cases op with
  | upd clots dt =>
    obtain ⟨hdt, _⟩ := hop
    have hinc : (0 : ℚ) ≤ clots.foldl
        (fun acc clot => acc + clot.getScale * clot.getScale * (dt / 1000) * 2) 0 :=
      le_foldl_of_step _ (fun a cl => crs_step_mono dt hdt a cl) clots 0
    refine ⟨?_, ?_, h2, h3⟩
    · exact le_min (by rw [h2]; norm_num) (by linarith)
    · exact min_le_left _ _
  | destroyed s =>
    have hs : 0 ≤ s := hop
    have hrs : 0 ≤ c.recoveryRate * s := by rw [h3]; positivity
    simp only [CRSCalculator.applyOp, CRSCalculator.onClotDestroyed]
    refine ⟨le_max_left _ _, ?_, h2, h3⟩
    exact max_le (by rw [h2]; norm_num) (by linarith)

/-- C1: starting from a reset CRSCalculator, after any sequence of
update(clots, deltaTime) and onClotDestroyed(scale) calls with
non-negative deltaTime and non-negative clot scales, the CRS value stays
within [0, 100]. -/
theorem crs_bounds (ops : List CRSOp) (hops : ∀ op ∈ ops, op.valid) :
    0 ≤ (ops.foldl CRSCalculator.applyOp CRSCalculator.init.reset).crsValue ∧
      (ops.foldl CRSCalculator.applyOp CRSCalculator.init.reset).crsValue ≤ 100 := by
  have key : ∀ (l : List CRSOp) (c : CRSCalculator), (∀ op ∈ l, op.valid) →
      (0 ≤ c.crsValue ∧ c.crsValue ≤ c.maxCRS ∧ c.maxCRS = 100 ∧ c.recoveryRate = 5) →
      0 ≤ (l.foldl CRSCalculator.applyOp c).crsValue ∧
        (l.foldl CRSCalculator.applyOp c).crsValue ≤ (l.foldl CRSCalculator.applyOp c).maxCRS ∧
        (l.foldl CRSCalculator.applyOp c).maxCRS = 100 ∧
        (l.foldl CRSCalculator.applyOp c).recoveryRate = 5 := by
    intro l
    induction l with
    | nil => intro c _ hc; exact hc
    | cons op rest ih =>
      intro c hl hc
      exact ih _ (fun o ho => hl o (List.mem_cons_of_mem _ ho))
        (applyOp_inv c op (hl op (List.mem_cons_self _ _)) hc)
  have h := key ops CRSCalculator.init.reset hops
    (by refine ⟨le_refl 0, ?_, rfl, rfl⟩; norm_num [CRSCalculator.init, CRSCalculator.reset])
  exact ⟨h.1, h.2.2.1 ▸ h.2.1⟩

/-- Witness for C1 at a concrete call sequence. -/
theorem crs_bounds_witness :
    0 ≤ (([CRSOp.upd [] 16, CRSOp.destroyed 1].foldl CRSCalculator.applyOp
        CRSCalculator.init.reset).crsValue) ∧
      (([CRSOp.upd [] 16, CRSOp.destroyed 1].foldl CRSCalculator.applyOp
        CRSCalculator.init.reset).crsValue) ≤ 100 :=
  crs_bounds [CRSOp.upd [] 16, CRSOp.destroyed 1]
    (by
      intro op hop
      simp only [List.mem_cons, List.mem_singleton] at hop
      rcases hop with h | h | h
      · subst h; exact ⟨by norm_num, by simp⟩
      · subst h; norm_num [CRSOp.valid]
      · cases h)

/-- C4: Clot.hit shrinks the radius by the per-instance shrinkAmount
(leaving shrinkAmount and minRadius unchanged, hence non-increasing
radius across any call sequence once shrinkAmount is non-negative), and
returns destroyed=true exactly when the resulting radius is ≤ minRadius. -/
theorem clot_hit_spec (c : Clot) :
    (c.hit).1.radius = c.radius - c.shrinkAmount ∧
      (c.hit).1.shrinkAmount = c.shrinkAmount ∧
      (c.hit).1.minRadius = c.minRadius ∧
      (0 ≤ c.shrinkAmount → (c.hit).1.radius ≤ c.radius) ∧
      ((c.hit).2 = true ↔ (c.hit).1.radius ≤ c.minRadius) := by
  refine ⟨rfl, rfl, rfl, ?_, ?_⟩
  · intro h
    simp only [Clot.hit]
    linarith
  · simp [Clot.hit]

/-- Witness for C4 at a concrete clot. -/
theorem clot_hit_spec_witness :
    (0 : ℚ) ≤ (5 : ℚ) ∧
      ((⟨100, 100, 50, 12, 10, 5, 1, 0, 0, 0, 1, true⟩ : Clot).hit).1.radius ≤
        (⟨100, 100, 50, 12, 10, 5, 1, 0, 0, 0, 1, true⟩ : Clot).radius :=
  ⟨by norm_num,
   (clot_hit_spec ⟨100, 100, 50, 12, 10, 5, 1, 0, 0, 0, 1, true⟩).2.2.2.1 (by norm_num)⟩

/-- Concrete oracle used in the concrete scenarios below. -/
def envC : Env :=
  { clotRand := fun _ => ⟨0, 0, 0, 0, 0, 0⟩, clotIdx := 0,
    extraRand := fun _ => 1, extraIdx := 0,
    puType := fun _ => PowerUpType.heal, puPhase := fun _ => 0, puIdx := 0 }

/-- A clot one hit away from destruction (radius 12, shrink 5, min 10),
flagged to drop a power-up. -/
def c2Clot : Clot :=
  { x := 100, y := 100, baseRadius := 50, radius := 12, minRadius := 10,
    shrinkAmount := 5, speed := 1, vx := 0, residenceTime := 0, hitFlash := 0,
    difficultyMultiplier := 1, dropsPowerUp := true }

/-- Two pulses on top of the same about-to-die clot: the failing input of
claim C2. -/
def c2Game : Game :=
  { Game.init 800 600 with
    state := GameState.playing,
    pulses := [Pulse.make 100 100, Pulse.make 100 100],
    clots := [c2Clot] }

/-- C2: evaluation of Game.checkCollisions at the failing input.  The
first pulse destroys the clot (radius 12 → 7 ≤ 10), yet the second pulse
still hits it in the same scan: the clot emits two destruction rewards —
two power-ups are spawned and the score is 55 + 110 = 165, i.e. the
50×min(combo,10) destroy bonus is paid twice for one clot. -/
theorem checkCollisions_double_destroy :
    (c2Game.checkCollisions envC).1.powerUps.length = 2 ∧
      (c2Game.checkCollisions envC).1.score = 165 ∧
      (c2Game.checkCollisions envC).1.clots = [] := by
  norm_num [c2Game, c2Clot, envC, Game.checkCollisions, processPair, Game.init,
    CRSCalculator.init, Pulse.make, Clot.hit, Clot.getScale, circleCollision,
    PowerUp.make, CRSCalculator.onClotDestroyed, List.enum, List.enumFrom,
    List.range, List.range.loop]

/-- A sturdy clot (radius 45, far above minRadius) used by the C3
counterexample. -/
def c3Clot (y : ℚ) : Clot :=
  { x := 100, y := y, baseRadius := 45, radius := 45, minRadius := 10,
    shrinkAmount := 5, speed := 1, vx := 0, residenceTime := 0, hitFlash := 0,
    difficultyMultiplier := 1, dropsPowerUp := false }

/-- One pulse overlapping two clots at once: the counterexample input of
claim C3. -/
def c3Game : Game :=
  { Game.init 800 600 with
    state := GameState.playing,
    pulses := [Pulse.make 100 100],
    clots := [c3Clot 90, c3Clot 110] }

/-- Counterexample to C3: a single projectile overlapping two clots hits
both of them in one scan — the combo counter rises by 2 and the score by
5×1 + 5×2 = 15, so a projectile is not consumed by its first hit. -/
theorem checkCollisions_pulse_double_hit :
    c3Game.pulses.length = 1 ∧
      (c3Game.checkCollisions envC).1.combo = 2 ∧
      (c3Game.checkCollisions envC).1.score = 15 ∧
      (c3Game.checkCollisions envC).1.pulses = [] := by
  norm_num [c3Game, c3Clot, envC, Game.checkCollisions, processPair, Game.init,
    CRSCalculator.init, Pulse.make, Clot.hit, Clot.getScale, circleCollision,
    PowerUp.make, CRSCalculator.onClotDestroyed, List.enum, List.enumFrom,
    List.range, List.range.loop]

/-- processPair leaves the clot count unchanged (hits mutate in place). -/
theorem processPair_clots_length (p : Pulse) (pi ci : ℕ) (s : ScanState) :
    (processPair p pi ci s).clots.length = s.clots.length := by
  unfold processPair
  cases s.clots.get? ci with
  | none => rfl
  | some clot =>
    simp only
    split_ifs <;> simp [List.length_set]

/-- processPair raises the combo counter by at most one. -/
theorem processPair_combo_le (p : Pulse) (pi ci : ℕ) (s : ScanState) :
    (processPair p pi ci s).combo ≤ s.combo + 1 := by
  unfold processPair
  cases s.clots.get? ci with
  | none => exact Nat.le_succ _
  | some clot =>
    simp only
    split_ifs <;> simp

/-- The inner clot loop of the scan raises combo by at most the number of
visited indices and keeps the clot count. -/
theorem scan_inner (p : Pulse) (pi : ℕ) :
    ∀ (l : List ℕ) (s : ScanState),
      (l.foldl (fun s ci => processPair p pi ci s) s).combo ≤ s.combo + l.length ∧
        (l.foldl (fun s ci => processPair p pi ci s) s).clots.length = s.clots.length := by
  intro l
  induction l with
  | nil => intro s; exact ⟨Nat.le_add_right _ 0, rfl⟩
  | cons ci rest ih =>
    intro s
    obtain ⟨h1, h2⟩ := ih (processPair p pi ci s)
    refine ⟨?_, ?_⟩
    · calc (List.foldl (fun s ci => processPair p pi ci s) (processPair p pi ci s) rest).combo
          ≤ (processPair p pi ci s).combo + rest.length := h1
        _ ≤ (s.combo + 1) + rest.length :=
            Nat.add_le_add_right (processPair_combo_le p pi ci s) _
        _ = s.combo + (ci :: rest).length := by simp; omega
    · rw [List.foldl_cons] at *
      rw [h2, processPair_clots_length]

/-- The all-pairs scan raises combo by at most pulses × clots and keeps
the clot count. -/
theorem scan_outer :
    ∀ (lp : List (ℕ × Pulse)) (s : ScanState),
      ((lp.foldl (fun s pp =>
          (List.range s.clots.length).foldl (fun s ci => processPair pp.2 pp.1 ci s) s) s).combo
        ≤ s.combo + lp.length * s.clots.length) ∧
      ((lp.foldl (fun s pp =>
          (List.range s.clots.length).foldl (fun s ci => processPair pp.2 pp.1 ci s) s) s).clots.length
        = s.clots.length) := by
  intro lp
  induction lp with
  | nil => intro s; exact ⟨by simp, rfl⟩
  | cons pp rest ih =>
    intro s
    obtain ⟨hi1, hi2⟩ := scan_inner pp.2 pp.1 (List.range s.clots.length) s
    set s1 := (List.range s.clots.length).foldl (fun s ci => processPair pp.2 pp.1 ci s) s
      with hs1
    obtain ⟨h1, h2⟩ := ih s1
    rw [List.foldl_cons]
    refine ⟨?_, by rw [← hs1, h2, hi2]⟩
    rw [← hs1]
    calc (List.foldl _ s1 rest).combo
        ≤ s1.combo + rest.length * s1.clots.length := h1
      _ = s1.combo + rest.length * s.clots.length := by rw [hi2]
      _ ≤ (s.combo + s.clots.length) + rest.length * s.clots.length := by
          have := hi1
          simp only [List.length_range] at this
          omega
      _ = s.combo + (pp :: rest).length * s.clots.length := by
          simp [List.length_cons, Nat.succ_mul]
          ring
  
/-- C3 (amended): a projectile is tested against every clot even after it
is marked for removal, so a scan performs at most one hit per
projectile–clot pair — combo grows by at most pulses × clots — and the
scan never adds projectiles. -/
theorem checkCollisions_hits_bounded (g : Game) (e : Env) :
    (g.checkCollisions e).1.combo ≤ g.combo + g.pulses.length * g.clots.length ∧
      (g.checkCollisions e).1.pulses.length ≤ g.pulses.length := by
  unfold Game.checkCollisions
  simp only
  constructor
  · have h := (scan_outer g.pulses.enum
      ⟨g.clots, [], [], g.combo, g.comboTimer, g.maxCombo, g.score, g.crs, g.powerUps, e⟩).1
    simpa [List.enum_length] using h
  · calc ((g.pulses.enum.filter _).map Prod.snd).length
        = (g.pulses.enum.filter _).length := List.length_map _ _
      _ ≤ g.pulses.enum.length := List.length_filter_le _ _
      _ = g.pulses.length := List.enum_length

/-- C8: processing one colliding projectile–clot pair increments the
combo and awards 5 × min(combo, 10) score using the incremented combo,
plus an extra 50 × min(combo, 10) exactly when the hit destroys the
clot (its shrunken radius falls to ≤ minRadius). -/
theorem hit_score_spec (p : Pulse) (pi ci : ℕ) (s : ScanState) (clot : Clot)
    (hget : s.clots.get? ci = some clot)
    (hcol : circleCollision p.x p.y p.radius clot.x clot.y clot.radius = true) :
    (processPair p pi ci s).combo = s.combo + 1 ∧
      (processPair p pi ci s).score =
        s.score + 5 * min (s.combo + 1) 10 +
          (if clot.radius - clot.shrinkAmount ≤ clot.minRadius then
            50 * min (s.combo + 1) 10 else 0) := by
  unfold processPair
  rw [hget]
  simp only [hcol, if_true, Clot.hit]
  by_cases hd : clot.radius - clot.shrinkAmount ≤ clot.minRadius <;>
    by_cases hdp : clot.dropsPowerUp = true <;>
    simp [hd, hdp]

/-- ScanState used by the C8 witness: one pulse over one sturdy clot. -/
def c8Scan : ScanState :=
  ⟨[c3Clot 90], [], [], 0, 0, 0, 0, CRSCalculator.init, [], envC⟩

/-- Collision fact for the C8 and C7 concrete scenarios: a pulse at
(100, 100) overlaps a clot at (100, 90) of radius 45. -/
theorem pulse_overlaps_clot :
    circleCollision (Pulse.make 100 100).x (Pulse.make 100 100).y
      (Pulse.make 100 100).radius (c3Clot 90).x (c3Clot 90).y (c3Clot 90).radius = true := by
  norm_num [circleCollision, Pulse.make, c3Clot]

/-- Witness for C8 at a concrete pair. -/
theorem hit_score_spec_witness :
    (processPair (Pulse.make 100 100) 0 0 c8Scan).combo = c8Scan.combo + 1 ∧
      (processPair (Pulse.make 100 100) 0 0 c8Scan).score =
        c8Scan.score + 5 * min (c8Scan.combo + 1) 10 +
          (if (c3Clot 90).radius - (c3Clot 90).shrinkAmount ≤ (c3Clot 90).minRadius then
            50 * min (c8Scan.combo + 1) 10 else 0) :=
  hit_score_spec (Pulse.make 100 100) 0 0 c8Scan (c3Clot 90) rfl pulse_overlaps_clot

/-- Unfolded form of the combo expiry step. -/
theorem comboPhase_eq (g : Game) (d : ℚ) :
    g.comboPhase d =
      if 0 < g.combo then
        (if g.comboTimer - d ≤ 0 then { g with comboTimer := g.comboTimer - d, combo := 0 }
         else { g with comboTimer := g.comboTimer - d })
      else g := rfl

/-- The combo expiry step at combo 0 is the identity. -/
theorem comboPhase_combo_zero (g : Game) (d : ℚ) (h : g.combo = 0) :
    g.comboPhase d = g := by
  rw [comboPhase_eq, h]
  simp

/-- The combo expiry step does not touch pulses or clots. -/
theorem comboPhase_pulses_clots (g : Game) (d : ℚ) :
    (g.comboPhase d).pulses = g.pulses ∧ (g.comboPhase d).clots = g.clots := by
  rw [comboPhase_eq]
  split_ifs <;> exact ⟨rfl, rfl⟩

/-- Iterated combo expiry steps over a list of frame times (Main.js
lines 709-715 applied once per frame, with no hit in between). -/
def comboFold (g : Game) (dts : List ℚ) : Game :=
  dts.foldl (fun g d => g.comboPhase d) g

/-- comboFold is the identity once the combo is 0. -/
theorem comboFold_zero (dts : List ℚ) : ∀ (g : Game), g.combo = 0 → comboFold g dts = g := by
  induction dts with
  | nil => intro g _; rfl
  | cons d rest ih =>
    intro g h
    show comboFold (g.comboPhase d) rest = g
    rw [comboPhase_combo_zero g d h]
    exact ih g h

/-- comboFold does not touch pulses or clots. -/
theorem comboFold_pulses_clots (dts : List ℚ) :
    ∀ (g : Game), (comboFold g dts).pulses = g.pulses ∧ (comboFold g dts).clots = g.clots := by
  induction dts with
  | nil => intro g; exact ⟨rfl, rfl⟩
  | cons d rest ih =>
    intro g
    obtain ⟨h1, h2⟩ := ih (g.comboPhase d)
    obtain ⟨h3, h4⟩ := comboPhase_pulses_clots g d
    exact ⟨h1.trans h3, h2.trans h4⟩

/-- Once at least the remaining combo window of frame time accumulates
with no hit, the combo counter is 0. -/
theorem comboFold_reset (dts : List ℚ) :
    ∀ (g : Game), (∀ d ∈ dts, 0 ≤ d) → 0 < g.comboTimer → g.comboTimer ≤ dts.sum →
      (comboFold g dts).combo = 0 := by
  induction dts with
  | nil =>
    intro g _ ht hs
    simp only [List.sum_nil] at hs
    linarith
  | cons d rest ih =>
    intro g hd ht hs
    show (comboFold (g.comboPhase d) rest).combo = 0
    by_cases hc : g.combo = 0
    · rw [comboPhase_combo_zero g d hc, comboFold_zero rest g hc]
      exact hc
    · rw [comboPhase_eq, if_pos (Nat.pos_of_ne_zero hc)]
      by_cases h0 : g.comboTimer - d ≤ 0
      · rw [if_pos h0]
        rw [comboFold_zero rest _ rfl]
      · rw [if_neg h0]
        refine ih _ (fun x hx => hd x (List.mem_cons_of_mem _ hx))
          (by show (0:ℚ) < g.comboTimer - d; linarith) ?_
        simp only [List.sum_cons] at hs
        simp only
        linarith

/-- If strictly less than the combo window of frame time accumulates, the
combo counter and window survive untouched (timer reduced by the sum). -/
theorem comboFold_window (dts : List ℚ) :
    ∀ (g : Game), (∀ d ∈ dts, 0 ≤ d) → 0 < g.combo → dts.sum < g.comboTimer →
      (comboFold g dts).combo = g.combo ∧
        (comboFold g dts).comboTimer = g.comboTimer - dts.sum := by
  induction dts with
  | nil =>
    intro g _ _ _
    refine ⟨rfl, ?_⟩
    show g.comboTimer = g.comboTimer - List.sum ([] : List ℚ)
    simp
  | cons d rest ih =>
    intro g hd hc hs
    have hd0 : 0 ≤ d := hd d (List.mem_cons_self _ _)
    have hr0 : 0 ≤ rest.sum := List.sum_nonneg (fun x hx => hd x (List.mem_cons_of_mem _ hx))
    simp only [List.sum_cons] at hs
    show (comboFold (g.comboPhase d) rest).combo = g.combo ∧
      (comboFold (g.comboPhase d) rest).comboTimer = g.comboTimer - (d :: rest).sum
    rw [comboPhase_eq, if_pos hc, if_neg (by linarith)]
    obtain ⟨h1, h2⟩ := ih { g with comboTimer := g.comboTimer - d }
      (fun x hx => hd x (List.mem_cons_of_mem _ hx)) hc (by simp only; linarith)
    refine ⟨h1, ?_⟩
    rw [h2]
    simp only [List.sum_cons]
    ring

/-- A scan over exactly one pulse and one clot that collide performs
exactly one hit: combo rises by one. -/
theorem checkCollisions_single (g : Game) (e : Env) (p : Pulse) (c : Clot)
    (hp : g.pulses = [p]) (hcl : g.clots = [c])
    (hcol : circleCollision p.x p.y p.radius c.x c.y c.radius = true) :
    ((g.checkCollisions e).1).combo = g.combo + 1 := by
  unfold Game.checkCollisions
  simp only [hp, hcl]
  have h1 : List.enum [p] = [(0, p)] := rfl
  rw [h1]
  simp only [List.foldl_cons, List.foldl_nil]
  have h2 : List.range (([c] : List Clot).length) = [0] := rfl
  simp only [h2, List.foldl_cons, List.foldl_nil]
  unfold processPair
  simp only [List.get?]
  rw [hcol]
  simp only [if_true]
  split_ifs <;> rfl

/-- C7: starting right after a hit (live combo, window timer at 1500ms),
if the accumulated frame time since the hit exceeds 1.5s the combo
resets to 0 and the next hit yields combo 1; if the next hit lands
strictly inside the 1.5s window the counter increments instead (so a hit
at t=0 followed by one at t=1000ms gives combo 2). -/
theorem combo_window_spec (g : Game) (e : Env) (p : Pulse) (c : Clot) (dts : List ℚ)
    (hd : ∀ d ∈ dts, 0 ≤ d) (hc0 : 0 < g.combo) (ht : g.comboTimer = 1500)
    (hp : g.pulses = [p]) (hcl : g.clots = [c])
    (hcol : circleCollision p.x p.y p.radius c.x c.y c.radius = true) :
    (1500 < dts.sum →
      (comboFold g dts).combo = 0 ∧
        ((comboFold g dts).checkCollisions e).1.combo = 1) ∧
    (dts.sum < 1500 →
      (comboFold g dts).combo = g.combo ∧
        ((comboFold g dts).checkCollisions e).1.combo = g.combo + 1) := by
  obtain ⟨hfp, hfc⟩ := comboFold_pulses_clots dts g
  constructor
  · intro hsum
    have hz : (comboFold g dts).combo = 0 :=
      comboFold_reset dts g hd (by rw [ht]; norm_num) (by rw [ht]; linarith)
    refine ⟨hz, ?_⟩
    rw [checkCollisions_single (comboFold g dts) e p c (hfp.trans hp) (hfc.trans hcl) hcol, hz]
  · intro hsum
    obtain ⟨hcombo, _⟩ := comboFold_window dts g hd hc0 (by rw [ht]; linarith)
    refine ⟨hcombo, ?_⟩
    rw [checkCollisions_single (comboFold g dts) e p c (hfp.trans hp) (hfc.trans hcl) hcol,
      hcombo]

/-- Concrete game state right after a first hit: combo 1, window full. -/
def c7Game : Game :=
  { Game.init 800 600 with
    state := GameState.playing, combo := 1, comboTimer := 1500,
    pulses := [Pulse.make 100 100], clots := [c3Clot 90] }

/-- Window sums for the C7 witness frames. -/
theorem c7_sum_facts : (1500 : ℚ) < List.sum [2000] ∧ List.sum [1000] < (1500 : ℚ) := by
  norm_num [List.sum_cons, List.sum_nil]

/-- Witness for C7: 2000ms of frame time kills the combo and the next
hit restarts it at 1, while a hit after only 1000ms raises it 1 → 2. -/
theorem combo_window_spec_witness :
    ((comboFold c7Game [2000]).combo = 0 ∧
      ((comboFold c7Game [2000]).checkCollisions envC).1.combo = 1) ∧
    ((comboFold c7Game [1000]).combo = c7Game.combo ∧
      ((comboFold c7Game [1000]).checkCollisions envC).1.combo = c7Game.combo + 1) :=
  ⟨(combo_window_spec c7Game envC (Pulse.make 100 100) (c3Clot 90) [2000]
      (by decide) (by decide) rfl rfl rfl pulse_overlaps_clot).1 c7_sum_facts.1,
   (combo_window_spec c7Game envC (Pulse.make 100 100) (c3Clot 90) [1000]
      (by decide) (by decide) rfl rfl rfl pulse_overlaps_clot).2 c7_sum_facts.2⟩

/-- A game whose auto-fire timer holds a mid-cycle value, as at the end
of any session (the counterexample input of claim C9). -/
def c9Game : Game :=
  { Game.init 800 600 with autoFireTimer := 100 }

/-- Counterexample to C9: startGame does not reset the auto-fire timer —
after startGame it still holds 100, while its initial value is 0. -/
theorem startGame_not_full_reset :
    (c9Game.startGame).state = GameState.playing ∧
      (c9Game.startGame).autoFireTimer = 100 ∧
      (Game.init 800 600).autoFireTimer = 0 ∧ (100 : ℚ) ≠ 0 :=
  ⟨rfl, rfl, rfl, by norm_num⟩

/-- C9 (amended): startGame resets score, the CRS value, the entity
collections, the spawn, difficulty, combo and pulse-cooldown timers, the
combo and max-combo counters and the active power-up durations to their
initial values and enters Playing — but it leaves the auto-fire timer at
its previous value. -/
theorem startGame_resets (g : Game) :
    (g.startGame).state = GameState.playing ∧
      (g.startGame).level = 0 ∧
      (g.startGame).score = 0 ∧
      (g.startGame).crs.crsValue = 0 ∧
      (g.startGame).pulses = [] ∧
      (g.startGame).clots = [] ∧
      (g.startGame).powerUps = [] ∧
      (g.startGame).spawnTimer = 0 ∧
      (g.startGame).pulseCooldown = 0 ∧
      (g.startGame).wasCritical = false ∧
      (g.startGame).difficultyTimer = 0 ∧
      (g.startGame).difficultyLevel = 0 ∧
      (g.startGame).difficultyMultiplier = 1 ∧
      (g.startGame).combo = 0 ∧
      (g.startGame).comboTimer = 0 ∧
      (g.startGame).maxCombo = 0 ∧
      (g.startGame).rapidFire = 0 ∧
      (g.startGame).multiShot = 0 ∧
      (g.startGame).shield = 0 ∧
      (g.startGame).autoFireTimer = g.autoFireTimer :=
  ⟨rfl, rfl, rfl, rfl, rfl, rfl, rfl, rfl, rfl, rfl, rfl, rfl, rfl, rfl, rfl, rfl,
   rfl, rfl, rfl, rfl⟩

/-- The difficulty tick does not touch pulses, CRS or power-up timers. -/
theorem difficultyPhase_keeps (g : Game) (dt : ℚ) :
    (g.difficultyPhase dt).pulses = g.pulses ∧
      (g.difficultyPhase dt).crs = g.crs ∧
      (g.difficultyPhase dt).rapidFire = g.rapidFire ∧
      (g.difficultyPhase dt).multiShot = g.multiShot ∧
      (g.difficultyPhase dt).shield = g.shield := by
  unfold Game.difficultyPhase
  dsimp only
  split <;> exact ⟨rfl, rfl, rfl, rfl, rfl⟩

/-- Player movement does not touch pulses, CRS or power-up timers. -/
theorem playerPhase_keeps (g : Game) (dt : ℚ) :
    (g.playerPhase dt).pulses = g.pulses ∧
      (g.playerPhase dt).crs = g.crs ∧
      (g.playerPhase dt).rapidFire = g.rapidFire ∧
      (g.playerPhase dt).multiShot = g.multiShot ∧
      (g.playerPhase dt).shield = g.shield :=
  ⟨rfl, rfl, rfl, rfl, rfl⟩

/-- fire does not touch CRS or the power-up timers. -/
theorem fire_keeps (g : Game) :
    (g.fire).crs = g.crs ∧
      (g.fire).rapidFire = g.rapidFire ∧
      (g.fire).multiShot = g.multiShot ∧
      (g.fire).shield = g.shield := by
  unfold Game.fire
  split_ifs <;> exact ⟨rfl, rfl, rfl, rfl⟩

/-- fire keeps the live-pulse count at or below 22. -/
theorem fire_len_le (g : Game) (hb : g.pulses.length ≤ 22) :
    (g.fire).pulses.length ≤ 22 := by
  unfold Game.fire
  split_ifs with h1 h2 h3 <;> (try simp [List.length_append]) <;> omega

/-- Auto-fire does not touch CRS or the power-up timers. -/
theorem autoFirePhase_keeps (g : Game) (dt : ℚ) :
    (g.autoFirePhase dt).crs = g.crs ∧
      (g.autoFirePhase dt).rapidFire = g.rapidFire ∧
      (g.autoFirePhase dt).multiShot = g.multiShot ∧
      (g.autoFirePhase dt).shield = g.shield := by
  unfold Game.autoFirePhase Game.fire
  dsimp only
  split_ifs <;> exact ⟨rfl, rfl, rfl, rfl⟩

/-- Auto-fire keeps the live-pulse count at or below 22. -/
theorem autoFirePhase_len_le (g : Game) (dt : ℚ) (hb : g.pulses.length ≤ 22) :
    (g.autoFirePhase dt).pulses.length ≤ 22 := by
  unfold Game.autoFirePhase
  dsimp only
  split_ifs <;> first
  | exact fire_len_le g hb
  | exact hb

/-- Pulse movement does not touch CRS or timers and never adds pulses. -/
theorem pulsesPhase_keeps (g : Game) :
    (g.pulsesPhase).crs = g.crs ∧
      (g.pulsesPhase).rapidFire = g.rapidFire ∧
      (g.pulsesPhase).multiShot = g.multiShot ∧
      (g.pulsesPhase).shield = g.shield ∧
      (g.pulsesPhase).pulses.length ≤ g.pulses.length :=
  ⟨rfl, rfl, rfl, rfl, List.length_filterMap_le _ _⟩

/-- Spawning does not touch pulses, CRS or power-up timers. -/
theorem spawnPhase_keeps (g : Game) (e : Env) (dt : ℚ) :
    (g.spawnPhase e dt).1.pulses = g.pulses ∧
      (g.spawnPhase e dt).1.crs = g.crs ∧
      (g.spawnPhase e dt).1.rapidFire = g.rapidFire ∧
      (g.spawnPhase e dt).1.multiShot = g.multiShot ∧
      (g.spawnPhase e dt).1.shield = g.shield := by
  unfold Game.spawnPhase Game.spawnClot
  dsimp only
  split_ifs <;> exact ⟨rfl, rfl, rfl, rfl, rfl⟩

/-- Clot movement does not touch pulses, CRS or power-up timers. -/
theorem clotsPhase_keeps (g : Game) (dt : ℚ) :
    (g.clotsPhase dt).pulses = g.pulses ∧
      (g.clotsPhase dt).crs = g.crs ∧
      (g.clotsPhase dt).rapidFire = g.rapidFire ∧
      (g.clotsPhase dt).multiShot = g.multiShot ∧
      (g.clotsPhase dt).shield = g.shield :=
  ⟨rfl, rfl, rfl, rfl, rfl⟩

/-- processPair never changes the CRS calibration constants. -/
theorem processPair_crs_params (p : Pulse) (pi ci : ℕ) (s : ScanState) :
    (processPair p pi ci s).crs.maxCRS = s.crs.maxCRS ∧
      (processPair p pi ci s).crs.recoveryRate = s.crs.recoveryRate := by
  unfold processPair
  cases s.clots.get? ci with
  | none => exact ⟨rfl, rfl⟩
  | some clot =>
    dsimp only
    split_ifs <;> simp [CRSCalculator.onClotDestroyed]

/-- The collision scan never changes the CRS calibration constants, and
does not touch the power-up timers. -/
theorem checkCollisions_keeps (g : Game) (e : Env) :
    (g.checkCollisions e).1.crs.maxCRS = g.crs.maxCRS ∧
      (g.checkCollisions e).1.crs.recoveryRate = g.crs.recoveryRate ∧
      (g.checkCollisions e).1.rapidFire = g.rapidFire ∧
      (g.checkCollisions e).1.multiShot = g.multiShot ∧
      (g.checkCollisions e).1.shield = g.shield := by
  have hstep : ∀ (b : ScanState) (a : ℕ × Pulse),
      (b.crs.maxCRS = g.crs.maxCRS ∧ b.crs.recoveryRate = g.crs.recoveryRate) →
      ((List.range b.clots.length).foldl (fun s ci => processPair a.2 a.1 ci s) b).crs.maxCRS
          = g.crs.maxCRS ∧
        ((List.range b.clots.length).foldl
            (fun s ci => processPair a.2 a.1 ci s) b).crs.recoveryRate
          = g.crs.recoveryRate := by
    intro b a hb
    exact foldl_invariant
      (fun s : ScanState =>
        s.crs.maxCRS = g.crs.maxCRS ∧ s.crs.recoveryRate = g.crs.recoveryRate)
      (fun s ci => processPair a.2 a.1 ci s) (List.range b.clots.length) b hb
      (fun b' a' hb' =>
        ⟨(processPair_crs_params a.2 a.1 a' b').1.trans hb'.1,
         (processPair_crs_params a.2 a.1 a' b').2.trans hb'.2⟩)
  have h := foldl_invariant
    (fun s : ScanState =>
      s.crs.maxCRS = g.crs.maxCRS ∧ s.crs.recoveryRate = g.crs.recoveryRate)
    (fun s pp => (List.range s.clots.length).foldl (fun s ci => processPair pp.2 pp.1 ci s) s)
    g.pulses.enum
    ⟨g.clots, [], [], g.combo, g.comboTimer, g.maxCombo, g.score, g.crs, g.powerUps, e⟩
    ⟨rfl, rfl⟩ hstep
  exact ⟨h.1, h.2, rfl, rfl, rfl⟩

/-- The collision scan never adds projectiles. -/
theorem checkCollisions_pulses_le (g : Game) (e : Env) :
    (g.checkCollisions e).1.pulses.length ≤ g.pulses.length := by
  unfold Game.checkCollisions
  dsimp only
  calc ((g.pulses.enum.filter _).map Prod.snd).length
      = (g.pulses.enum.filter _).length := List.length_map _ _
    _ ≤ g.pulses.enum.length := List.length_filter_le _ _
    _ = g.pulses.length := List.enum_length

/-- The escape cull does not touch pulses, timers, or the CRS
calibration constants. -/
theorem escapePhase_keeps (g : Game) :
    (g.escapePhase).pulses = g.pulses ∧
      (g.escapePhase).crs.maxCRS = g.crs.maxCRS ∧
      (g.escapePhase).crs.recoveryRate = g.crs.recoveryRate ∧
      (g.escapePhase).rapidFire = g.rapidFire ∧
      (g.escapePhase).multiShot = g.multiShot ∧
      (g.escapePhase).shield = g.shield :=
  ⟨rfl, rfl, rfl, rfl, rfl, rfl⟩

/-- CRS accumulation clamps the value at maxCRS and touches nothing
else. -/
theorem crsPhase_keeps (g : Game) (dt : ℚ) :
    (g.crsPhase dt).pulses = g.pulses ∧
      (g.crsPhase dt).crs.maxCRS = g.crs.maxCRS ∧
      (g.crsPhase dt).crs.crsValue ≤ g.crs.maxCRS ∧
      (g.crsPhase dt).rapidFire = g.rapidFire ∧
      (g.crsPhase dt).multiShot = g.multiShot ∧
      (g.crsPhase dt).shield = g.shield :=
  ⟨rfl, rfl, min_le_left _ _, rfl, rfl, rfl⟩

/-- The critical latch only writes wasCritical. -/
theorem criticalPhase_keeps (g : Game) :
    (g.criticalPhase).pulses = g.pulses ∧
      (g.criticalPhase).crs = g.crs ∧
      (g.criticalPhase).rapidFire = g.rapidFire ∧
      (g.criticalPhase).multiShot = g.multiShot ∧
      (g.criticalPhase).shield = g.shield := by
  unfold Game.criticalPhase
  split_ifs <;> exact ⟨rfl, rfl, rfl, rfl, rfl⟩

/-- The game-over check only writes the state. -/
theorem gameOverPhase_keeps (g : Game) :
    (g.gameOverPhase).pulses = g.pulses ∧
      (g.gameOverPhase).crs = g.crs ∧
      (g.gameOverPhase).rapidFire = g.rapidFire ∧
      (g.gameOverPhase).multiShot = g.multiShot ∧
      (g.gameOverPhase).shield = g.shield := by
  unfold Game.gameOverPhase
  split_ifs <;> exact ⟨rfl, rfl, rfl, rfl, rfl⟩

/-- Power-up movement only writes the power-up list. -/
theorem powerUpsMovePhase_keeps (g : Game) (dt : ℚ) :
    (g.powerUpsMovePhase dt).pulses = g.pulses ∧
      (g.powerUpsMovePhase dt).crs = g.crs ∧
      (g.powerUpsMovePhase dt).rapidFire = g.rapidFire ∧
      (g.powerUpsMovePhase dt).multiShot = g.multiShot ∧
      (g.powerUpsMovePhase dt).shield = g.shield :=
  ⟨rfl, rfl, rfl, rfl, rfl⟩

/-- The combo phase does not touch CRS or the power-up timers. -/
theorem comboPhase_keeps (g : Game) (d : ℚ) :
    (g.comboPhase d).pulses = g.pulses ∧
      (g.comboPhase d).crs = g.crs ∧
      (g.comboPhase d).rapidFire = g.rapidFire ∧
      (g.comboPhase d).multiShot = g.multiShot ∧
      (g.comboPhase d).shield = g.shield := by
  rw [comboPhase_eq]
  split_ifs <;> exact ⟨rfl, rfl, rfl, rfl, rfl⟩

/-- The timer decay phase writes exactly the three timers. -/
theorem timersPhase_keeps (g : Game) (dt : ℚ) :
    (g.timersPhase dt).pulses = g.pulses ∧
      (g.timersPhase dt).crs = g.crs ∧
      (g.timersPhase dt).rapidFire = decayTimer g.rapidFire dt ∧
      (g.timersPhase dt).multiShot = decayTimer g.multiShot dt ∧
      (g.timersPhase dt).shield = decayTimer g.shield dt :=
  ⟨rfl, rfl, rfl, rfl, rfl⟩

/-- A decayed timer stays above min(previous reference, −deltaTime). -/
theorem decayTimer_bound (R t dt : ℚ) (hdt : 0 ≤ dt) (h : min R 0 ≤ t) :
    min R (-dt) ≤ decayTimer t dt := by
  unfold decayTimer
  split_ifs with h0
  · calc min R (-dt) ≤ -dt := min_le_right _ _
      _ ≤ t - dt := by linarith
  · calc min R (-dt) ≤ min R 0 := min_le_min (le_refl R) (by linarith)
      _ ≤ t := h

/-- The pickup phase keeps pulses and the CRS calibration, keeps the CRS
value at or below 100 if it was, and can only push a power-up timer up
to a refresh duration — never below min(previous value, 0). -/
theorem pickupPhase_bounds (g : Game) :
    (g.pickupPhase).pulses = g.pulses ∧
      (g.pickupPhase).crs.maxCRS = g.crs.maxCRS ∧
      (g.pickupPhase).crs.recoveryRate = g.crs.recoveryRate ∧
      (g.crs.crsValue ≤ 100 → (g.pickupPhase).crs.crsValue ≤ 100) ∧
      min g.rapidFire 0 ≤ (g.pickupPhase).rapidFire ∧
      min g.multiShot 0 ≤ (g.pickupPhase).multiShot ∧
      min g.shield 0 ≤ (g.pickupPhase).shield := by
  have hstep : ∀ (b : List PowerUp × Game) (a : PowerUp),
      (b.2.pulses = g.pulses ∧ b.2.crs.maxCRS = g.crs.maxCRS ∧
        b.2.crs.recoveryRate = g.crs.recoveryRate ∧
        (g.crs.crsValue ≤ 100 → b.2.crs.crsValue ≤ 100) ∧
        min g.rapidFire 0 ≤ b.2.rapidFire ∧
        min g.multiShot 0 ≤ b.2.multiShot ∧
        min g.shield 0 ≤ b.2.shield) →
      (((fun (acc : List PowerUp × Game) pu =>
          if 0 < pu.radius + 30 ∧
              (pu.x - acc.2.player.x) * (pu.x - acc.2.player.x) +
                  (pu.y - acc.2.player.y) * (pu.y - acc.2.player.y) <
                (pu.radius + 30) * (pu.radius + 30)
          then (acc.1, acc.2.applyPowerUp pu.typeKey)
          else (acc.1 ++ [pu], acc.2)) b a).2.pulses = g.pulses ∧
        ((fun (acc : List PowerUp × Game) pu =>
          if 0 < pu.radius + 30 ∧
              (pu.x - acc.2.player.x) * (pu.x - acc.2.player.x) +
                  (pu.y - acc.2.player.y) * (pu.y - acc.2.player.y) <
                (pu.radius + 30) * (pu.radius + 30)
          then (acc.1, acc.2.applyPowerUp pu.typeKey)
          else (acc.1 ++ [pu], acc.2)) b a).2.crs.maxCRS = g.crs.maxCRS ∧
        ((fun (acc : List PowerUp × Game) pu =>
          if 0 < pu.radius + 30 ∧
              (pu.x - acc.2.player.x) * (pu.x - acc.2.player.x) +
                  (pu.y - acc.2.player.y) * (pu.y - acc.2.player.y) <
                (pu.radius + 30) * (pu.radius + 30)
          then (acc.1, acc.2.applyPowerUp pu.typeKey)
          else (acc.1 ++ [pu], acc.2)) b a).2.crs.recoveryRate = g.crs.recoveryRate ∧
        (g.crs.crsValue ≤ 100 →
          ((fun (acc : List PowerUp × Game) pu =>
            if 0 < pu.radius + 30 ∧
                (pu.x - acc.2.player.x) * (pu.x - acc.2.player.x) +
                    (pu.y - acc.2.player.y) * (pu.y - acc.2.player.y) <
                  (pu.radius + 30) * (pu.radius + 30)
            then (acc.1, acc.2.applyPowerUp pu.typeKey)
            else (acc.1 ++ [pu], acc.2)) b a).2.crs.crsValue ≤ 100) ∧
        min g.rapidFire 0 ≤
          ((fun (acc : List PowerUp × Game) pu =>
            if 0 < pu.radius + 30 ∧
                (pu.x - acc.2.player.x) * (pu.x - acc.2.player.x) +
                    (pu.y - acc.2.player.y) * (pu.y - acc.2.player.y) <
                  (pu.radius + 30) * (pu.radius + 30)
            then (acc.1, acc.2.applyPowerUp pu.typeKey)
            else (acc.1 ++ [pu], acc.2)) b a).2.rapidFire ∧
        min g.multiShot 0 ≤
          ((fun (acc : List PowerUp × Game) pu =>
            if 0 < pu.radius + 30 ∧
                (pu.x - acc.2.player.x) * (pu.x - acc.2.player.x) +
                    (pu.y - acc.2.player.y) * (pu.y - acc.2.player.y) <
                  (pu.radius + 30) * (pu.radius + 30)
            then (acc.1, acc.2.applyPowerUp pu.typeKey)
            else (acc.1 ++ [pu], acc.2)) b a).2.multiShot ∧
        min g.shield 0 ≤
          ((fun (acc : List PowerUp × Game) pu =>
            if 0 < pu.radius + 30 ∧
                (pu.x - acc.2.player.x) * (pu.x - acc.2.player.x) +
                    (pu.y - acc.2.player.y) * (pu.y - acc.2.player.y) <
                  (pu.radius + 30) * (pu.radius + 30)
            then (acc.1, acc.2.applyPowerUp pu.typeKey)
            else (acc.1 ++ [pu], acc.2)) b a).2.shield) := by
    intro b a hb
    obtain ⟨h1, h2, h3, h4, h5, h6, h7⟩ := hb
    dsimp only
    split_ifs with hcond
    · cases hk : a.typeKey <;> simp only [Game.applyPowerUp]
      · exact ⟨h1, h2, h3, h4, le_trans (min_le_right _ _) (by norm_num), h6, h7⟩
      · refine ⟨h1, h2, h3, ?_, h5, h6, h7⟩
        intro hc
        exact max_le (by norm_num) (by have := h4 hc; linarith)
      · exact ⟨h1, h2, h3, h4, h5, le_trans (min_le_right _ _) (by norm_num), h7⟩
      · exact ⟨h1, h2, h3, h4, h5, h6, le_trans (min_le_right _ _) (by norm_num)⟩
    · exact ⟨h1, h2, h3, h4, h5, h6, h7⟩
  have h := foldl_invariant _ _ g.powerUps ([], g)
    ⟨rfl, rfl, rfl, fun h => h, min_le_left _ _, min_le_left _ _, min_le_left _ _⟩ hstep
  exact h

/-- Characterization of the escape cull fold: escaped clots are dropped
and their penalties summed onto the CRS value, the rest kept in order. -/
theorem escape_foldl (h : ℚ) :
    ∀ (clots : List Clot) (kept : List Clot) (v : ℚ),
      clots.foldl (fun (acc : List Clot × ℚ) c =>
        if escaped h c then (acc.1, acc.2 + (25 + c.getScale * 15))
        else (acc.1 ++ [c], acc.2)) (kept, v) =
      (kept ++ clots.filter (fun c => ! escaped h c),
        v + ((clots.filter (escaped h)).map (fun c => 25 + c.getScale * 15)).sum) := by
  intro clots
  induction clots with
  | nil => intro kept v; simp
  | cons c cs ih =>
    intro kept v
    rw [List.foldl_cons]
    by_cases hc : escaped h c = true
    · rw [if_pos hc, ih]
      simp [hc]
      ring
    · rw [if_neg hc, ih]
      simp at hc
      simp [hc]

/-- C5: during a frame the escape cull removes exactly the clots past
the bottom of the playfield and adds exactly 25 + getScale()×15 per
escaped clot to the CRS value (unclamped at that point), and by the end
of the same Game.update frame the CRS value is clamped to at most 100
(clamping happens in the subsequent CRS accumulation, and no later phase
can push it back over). -/
theorem escape_penalty_spec (g : Game) (e : Env) (deltaTime : ℚ) :
    (g.escapePhase).crs.crsValue =
        g.crs.crsValue +
          ((g.clots.filter (escaped g.canvasHeight)).map (fun c => 25 + c.getScale * 15)).sum ∧
      (g.escapePhase).clots = g.clots.filter (fun c => ! escaped g.canvasHeight c) ∧
      (g.state = GameState.playing → g.crs.maxCRS = 100 →
        (g.update e deltaTime).1.crs.crsValue ≤ 100) := by
  refine ⟨?_, ?_, ?_⟩
  · unfold Game.escapePhase
    dsimp only
    rw [escape_foldl]
  · unfold Game.escapePhase
    dsimp only
    rw [escape_foldl]
    exact List.nil_append _
  · intro hs hmax
    unfold Game.update
    split_ifs with h1
    · exact absurd hs h1
    · dsimp only
      simp only [timersPhase_keeps, comboPhase_keeps]
      refine (pickupPhase_bounds _).2.2.2.1 ?_
      simp only [powerUpsMovePhase_keeps, gameOverPhase_keeps, criticalPhase_keeps]
      refine le_trans (crsPhase_keeps _ _).2.2.1 ?_
      simp only [escapePhase_keeps, checkCollisions_keeps, clotsPhase_keeps,
        spawnPhase_keeps, pulsesPhase_keeps, autoFirePhase_keeps, playerPhase_keeps,
        difficultyPhase_keeps]
      rw [hmax]

/-- A clot of scale 1.0 (radius = baseRadius = 40) already past the
bottom of the 800×600 playfield (y = 700 > 600 + 40). -/
def c5Clot : Clot :=
  { x := 100, y := 700, baseRadius := 40, radius := 40, minRadius := 10,
    shrinkAmount := 5, speed := 1, vx := 0, residenceTime := 0, hitFlash := 0,
    difficultyMultiplier := 1, dropsPowerUp := false }

/-- Playing game whose only clot has escaped at scale 1.0. -/
def c5Game : Game :=
  { Game.init 800 600 with state := GameState.playing, clots := [c5Clot] }

/-- The escape penalty of the scale-1.0 clot evaluates to exactly 40. -/
theorem c5_escape_sum :
    c5Game.crs.crsValue +
      ((c5Game.clots.filter (escaped c5Game.canvasHeight)).map
        (fun c => 25 + c.getScale * 15)).sum = 40 := by
  norm_num [c5Game, c5Clot, Game.init, CRSCalculator.init, escaped, Clot.getScale,
    List.filter]

/-- Witness for C5: escaping a scale-1.0 clot adds exactly 40, and the
frame leaves CRS at most 100. -/
theorem escape_penalty_spec_witness :
    (c5Game.escapePhase).crs.crsValue = 40 ∧
      (c5Game.update envC 16).1.crs.crsValue ≤ 100 :=
  ⟨((escape_penalty_spec c5Game envC 16).1).trans c5_escape_sum,
   (escape_penalty_spec c5Game envC 16).2.2 rfl rfl⟩

/-- Playing game with 50ms of rapid-fire left: the counterexample input
of claim C6. -/
def c6Game : Game :=
  { Game.init 800 600 with state := GameState.playing, rapidFire := 50 }

/-- Counterexample to C6: a frame of 60ms decrements the 50ms rapid-fire
timer to −10 < 0 — the per-frame decrement does not floor at zero. -/
theorem timers_go_negative :
    (c6Game.update envC 60).1.rapidFire = -10 ∧ ((-10 : ℚ) < 0) := by
  constructor
  · norm_num [c6Game, envC, Game.update, Game.difficultyPhase, Game.playerPhase,
      Game.autoFirePhase, Game.pulsesPhase, Game.spawnPhase, Game.clotsPhase,
      Game.checkCollisions, Game.escapePhase, Game.crsPhase, Game.criticalPhase,
      Game.gameOverPhase, Game.powerUpsMovePhase, Game.pickupPhase, Game.comboPhase,
      Game.timersPhase, decayTimer, Game.fire, Game.init, Player.make, Player.update,
      Pulse.make, Pulse.update, Game.spawnClot, processPair, CRSCalculator.init,
      CRSCalculator.update, CRSCalculator.isCritical, CRSCalculator.isFailed,
      lerp, circleCollision, List.enum, List.enumFrom]
  · norm_num

/-- C6 (amended): a power-up timer is decremented only while positive,
so a single frame can overshoot below zero by at most that frame's
deltaTime: after Game.update with deltaTime dt ≥ 0 each timer is at
least min(previous value, −dt) — but not necessarily non-negative. -/
theorem timers_floor_amended (g : Game) (e : Env) (dt : ℚ) (hdt : 0 ≤ dt) :
    min g.rapidFire (-dt) ≤ (g.update e dt).1.rapidFire ∧
      min g.multiShot (-dt) ≤ (g.update e dt).1.multiShot ∧
      min g.shield (-dt) ≤ (g.update e dt).1.shield := by
  unfold Game.update
  split_ifs with hs
  · exact ⟨min_le_left _ _, min_le_left _ _, min_le_left _ _⟩
  · dsimp only
    refine ⟨?_, ?_, ?_⟩
    · simp only [timersPhase_keeps, comboPhase_keeps]
      refine decayTimer_bound _ _ _ hdt (le_trans ?_ (pickupPhase_bounds _).2.2.2.2.1)
      simp only [powerUpsMovePhase_keeps, gameOverPhase_keeps, criticalPhase_keeps,
        crsPhase_keeps, escapePhase_keeps, checkCollisions_keeps, clotsPhase_keeps,
        spawnPhase_keeps, pulsesPhase_keeps, autoFirePhase_keeps, playerPhase_keeps,
        difficultyPhase_keeps, le_refl]
    · simp only [timersPhase_keeps, comboPhase_keeps]
      refine decayTimer_bound _ _ _ hdt (le_trans ?_ (pickupPhase_bounds _).2.2.2.2.2.1)
      simp only [powerUpsMovePhase_keeps, gameOverPhase_keeps, criticalPhase_keeps,
        crsPhase_keeps, escapePhase_keeps, checkCollisions_keeps, clotsPhase_keeps,
        spawnPhase_keeps, pulsesPhase_keeps, autoFirePhase_keeps, playerPhase_keeps,
        difficultyPhase_keeps, le_refl]
    · simp only [timersPhase_keeps, comboPhase_keeps]
      refine decayTimer_bound _ _ _ hdt (le_trans ?_ (pickupPhase_bounds _).2.2.2.2.2.2)
      simp only [powerUpsMovePhase_keeps, gameOverPhase_keeps, criticalPhase_keeps,
        crsPhase_keeps, escapePhase_keeps, checkCollisions_keeps, clotsPhase_keeps,
        spawnPhase_keeps, pulsesPhase_keeps, autoFirePhase_keeps, playerPhase_keeps,
        difficultyPhase_keeps, le_refl]

/-- Witness for the amended C6 at the concrete counterexample frame. -/
theorem timers_floor_amended_witness :
    min c6Game.rapidFire (-120) ≤ (c6Game.update envC 120).1.rapidFire ∧
      min c6Game.multiShot (-120) ≤ (c6Game.update envC 120).1.multiShot ∧
      min c6Game.shield (-120) ≤ (c6Game.update envC 120).1.shield :=
  timers_floor_amended c6Game envC 120 (by decide)

/-- C10: while Playing, fire is a silent no-op at 20 or more live
pulses, otherwise appends one pulse (three with multi-shot active); so
the live pulse count never exceeds 22, and a full frame update preserves
that bound. -/
theorem fire_cap_spec (g : Game) (hs : g.state = GameState.playing) :
    (20 ≤ g.pulses.length → g.fire = g) ∧
      (g.pulses.length < 20 →
        (g.fire).pulses.length = g.pulses.length + (if 0 < g.multiShot then 3 else 1)) ∧
      (g.pulses.length ≤ 22 → (g.fire).pulses.length ≤ 22) ∧
      (∀ (e : Env) (dt : ℚ), g.pulses.length ≤ 22 → (g.update e dt).1.pulses.length ≤ 22) := by
  refine ⟨?_, ?_, fun hb => fire_len_le g hb, ?_⟩
  · intro h20
    unfold Game.fire
    rw [if_neg (fun hne => hne hs), if_neg (by omega)]
  · intro hlt
    unfold Game.fire
    rw [if_neg (fun hne => hne hs), if_pos hlt]
    split_ifs <;> simp [List.length_append]
  · intro e dt hb
    unfold Game.update
    split_ifs with h1
    · exact hb
    · dsimp only
      simp only [timersPhase_keeps, comboPhase_keeps, pickupPhase_bounds,
        powerUpsMovePhase_keeps, gameOverPhase_keeps, criticalPhase_keeps,
        crsPhase_keeps, escapePhase_keeps]
      refine le_trans (checkCollisions_pulses_le _ _) ?_
      simp only [clotsPhase_keeps, spawnPhase_keeps]
      refine le_trans (pulsesPhase_keeps _).2.2.2.2 ?_
      refine autoFirePhase_len_le _ _ ?_
      simp only [playerPhase_keeps, difficultyPhase_keeps]
      exact hb

/-- Fresh Playing game with no live pulses. -/
def c10Game : Game :=
  { Game.init 800 600 with state := GameState.playing }

/-- Witness for C10: firing from an empty pulse list appends one pulse,
and a frame update keeps the count at or below 22. -/
theorem fire_cap_spec_witness :
    (c10Game.fire).pulses.length = c10Game.pulses.length +
        (if 0 < c10Game.multiShot then 3 else 1) ∧
      (c10Game.update envC 16).1.pulses.length ≤ 22 :=
  ⟨(fire_cap_spec c10Game rfl).2.1 (by decide),
   (fire_cap_spec c10Game rfl).2.2.2 envC 16 (by decide)⟩
